import Mathlib

/-
Verification of the tiled-inference and mosaicking engine of deepbedmap.py
(section "4.1 The whole of Antarctica tiler and predictor", lines 667-743).

Embedding conventions.  All pixel quantities are natural numbers.  Python's
floor division `//` on nonnegative ints is ℕ division, and Python's
`max(0, a - b - c)` on nonnegative ints is ℕ truncated subtraction
`a - b - c`.  Slice endpoints that Python would compute as negative are
discussed at `axisWriteStop`; for this program they always denote an empty
slice, which the truncated subtraction used here also yields.  The mosaic
`Y_hat` is modelled as a map from pixel coordinates to the identity of the
tile that last wrote the pixel, with `none` standing for the `np.nan`
no-data sentinel it is initialised with; which tile wrote a pixel (not the
floating-point value written) is the only thing the stitching invariants
are about.
-/

/-- The `Shape` dataclass (deepbedmap.py lines 667-670): a 2D extent with a
row count `y` and a column count `x`. -/
structure Shape where
  y : ℕ
  x : ℕ
  deriving DecidableEq

/-- Python `range(0, stop, step)` for nonnegative `stop` and positive `step`:
the values `0, step, 2*step, ...` strictly below `stop`.  (`step = 0` makes
Python raise `ValueError`; that error path is modelled by `pyRange` below.
This pure version returns `[]` for `step = 0` and is only ever used with
positive steps.) -/
def natRange (stop step : ℕ) : List ℕ :=
  List.range' 0 ((stop + step - 1) / step) step

/-- The tile scheduler (lines 686-689): the list `steps` of tile origins, in
row-major order, produced by the two nested `range(0, final_shape, stride)`
loops. -/
def steps (final_shape stride : Shape) : List Shape :=
  (natRange final_shape.y stride.y).flatMap
    (fun ys => (natRange final_shape.x stride.x).map (fun xs => Shape.mk ys xs))

/-- Lower window bound of the multi-resolution window mapper
(lines 693 and 696): `max(0, step // 4 - xtrapad - 1)` in primary-input
(BEDMAP2) pixels.  `pa` is the padding component, `sa` the tile-origin
component along the axis. -/
def window0 (pa sa : ℕ) : ℕ :=
  sa / 4 - pa - 1

/-- Upper window bound of the multi-resolution window mapper
(lines 694 and 697):
`min(final_shape // 4, (step + ary_shape) // 4 + xtrapad + 1)` in
primary-input pixels.  `fa` is the full-extent component, `aa` the
tile-size component. -/
def window1 (fa aa pa sa : ℕ) : ℕ :=
  min (fa / 4) ((sa + aa) / 4 + pa + 1)

/-- Modelled from the spec: the upper window bound as the spec's words state
it, with ceiling division `ceil((origin + ary_shape) / 4)` in place of the
code's floor division; it exists only to be compared with `window1`. -/
def specWindow1 (fa aa pa sa : ℕ) : ℕ :=
  min (fa / 4) ((sa + aa + 3) / 4 + pa + 1)

/-- First output-resolution row (resp. column) written by a tile's stitch:
the start of the slice `(y0 + xtrapad + 1) * 4` of line 717 (718). -/
def axisWriteStart (pa sa : ℕ) : ℕ :=
  4 * (window0 pa sa + pa + 1)

/-- One past the last output-resolution row (resp. column) written by a
tile's stitch: the stop `(y1 - xtrapad - 1) * 4` of the slice of line 717
(718).  Python computes the stop as a possibly negative int; it is negative
only when `window1 < pa + 1`, which forces `fa / 4 < pa + 1`, and then the
numpy wrap-around stop `fa + stop` is below the slice start
`axisWriteStart >= 4 * (pa + 1) > fa`, so the slice is empty; the truncated
subtraction used here yields an empty interval in exactly that case. -/
def axisWriteStop (fa aa pa sa : ℕ) : ℕ :=
  4 * (window1 fa aa pa sa - pa - 1)

/-- A tile whose origin has axis component `sa` writes the output
row/column `r` (one axis of the `Y_hat[:, y_slice, x_slice]` assignment of
lines 716-719). -/
def rowWrites (fa aa pa sa r : ℕ) : Prop :=
  axisWriteStart pa sa ≤ r ∧ r < axisWriteStop fa aa pa sa

instance (fa aa pa sa r : ℕ) : Decidable (rowWrites fa aa pa sa r) :=
  inferInstanceAs (Decidable (_ ∧ _))

/-- The tile scheduled at origin `s` writes the mosaic pixel `(r, c)`:
both coordinates lie inside the target rectangle of the stitch assignment
(lines 716-719). -/
def writesTo (F A p s : Shape) (r c : ℕ) : Prop :=
  rowWrites F.y A.y p.y s.y r ∧ rowWrites F.x A.x p.x s.x c

instance (F A p s : Shape) (r c : ℕ) : Decidable (writesTo F A p s r c) :=
  inferInstanceAs (Decidable (_ ∧ _))

/-- Number of scheduled tiles whose interior write covers the mosaic pixel
`(r, c)`.  `A` is `ary_shape`, `stride` the scheduling stride (equal to `A`
in the reference configuration), `p` is `xtrapad`. -/
def countWriters (F A stride p : Shape) (r c : ℕ) : ℕ :=
  ((steps F stride).filter (fun s => decide (writesTo F A p s r c))).length

/-- The output mosaic after the stitching loop (lines 682-727): initialised
everywhere to the sentinel (`none`, modelling `np.nan`), then each scheduled
tile in order writes its identity over its target rectangle. -/
def Y_hat (F A stride p : Shape) : ℕ → ℕ → Option Shape :=
  (steps F stride).foldl
    (fun m s => fun r c => if writesTo F A p s r c then some s else m r c)
    (fun _ _ => none)

/-- A source-native crop window `(row start, row stop, col start, col stop)`,
half open, as used on lines 701-708. -/
structure Win where
  r0 : ℕ
  r1 : ℕ
  c0 : ℕ
  c1 : ℕ
  deriving DecidableEq

/-- Crop of the primary input `X_tile` (BEDMAP2), line 701:
`X_tile[:, :, y0:y1, x0:x1]`. -/
def cropX (F A p s : Shape) : Win :=
  ⟨window0 p.y s.y, window1 F.y A.y p.y s.y, window0 p.x s.x, window1 F.x A.x p.x s.x⟩

/-- Crop of the finest auxiliary input `W1_tile` (REMA), lines 702-704:
`W1_tile[:, :, y0*10 : y1*10, x0*10 : x1*10]`. -/
def cropW1 (F A p s : Shape) : Win :=
  ⟨window0 p.y s.y * 10, window1 F.y A.y p.y s.y * 10,
   window0 p.x s.x * 10, window1 F.x A.x p.x s.x * 10⟩

/-- Crop of the two-band velocity input `W2_tile` (MEaSUREs), lines 705-707:
`W2_tile[:, :, y0*2 : y1*2, x0*2 : x1*2]`. -/
def cropW2 (F A p s : Shape) : Win :=
  ⟨window0 p.y s.y * 2, window1 F.y A.y p.y s.y * 2,
   window0 p.x s.x * 2, window1 F.x A.x p.x s.x * 2⟩

/-- Crop of the accumulation input `W3_tile`, line 708:
`W3_tile[:, :, y0:y1, x0:x1]`. -/
def cropW3 (F A p s : Shape) : Win :=
  ⟨window0 p.y s.y, window1 F.y A.y p.y s.y, window0 p.x s.x, window1 F.x A.x p.x s.x⟩

/-- Length of the numpy slice `a[q : -q]` on an axis of length `L`
(the border trim of lines 720-722, with `q = xtrapad * 4`).  For `q = 0`
Python's `-0` stop makes the slice empty; for `0 < q` the effective length
is `max(0, L - 2*q)`, including the cases where the negative stop wraps
around or the clamped start meets it. -/
def sliceTrimLen (L q : ℕ) : ℕ :=
  if q = 0 then 0 else L - 2 * q

/-- Per-tile shape compatibility of the stitch assignment (the condition
under which numpy does not raise `ValueError` on lines 716-723): along each
axis, the length of the target slice into `Y_hat` equals the length of the
trimmed prediction.  The prediction extents are modelled from the spec: the
generator is fully convolutional with a fixed x4 upsampling factor and
consumes the one-pixel context border of the input window, so an input
window of `h` primary pixels yields `4 * (h - 2)` output pixels (spec
sections 4.3-4.5; the network itself lives in srgan_train.ipynb, outside
this repository's sources). -/
def stitchOkB (F A p s : Shape) : Bool :=
  decide (axisWriteStop F.y A.y p.y s.y - axisWriteStart p.y s.y
        = sliceTrimLen (4 * (window1 F.y A.y p.y s.y - window0 p.y s.y - 2)) (4 * p.y))
  && decide (axisWriteStop F.x A.x p.x s.x - axisWriteStart p.x s.x
        = sliceTrimLen (4 * (window1 F.x A.x p.x s.x - window0 p.x s.x - 2)) (4 * p.x))

/-- The whole tiling run (lines 682-743): schedule the tiles, stitch each
prediction into `Y_hat`, and, if every per-tile numpy assignment is
shape-compatible, hand the mosaic as-is to the persistence collaborator
(`save_array_to_grid`, lines 736-743) - the code performs no further check
between the loop and the export.  A shape-incompatible tile raises
`ValueError` (re-raised by the bare `raise` of line 725), aborting the run. -/
def runE (F A stride p : Shape) : Except String (ℕ → ℕ → Option Shape) :=
  if (steps F stride).all (fun s => stitchOkB F A p s) then
    Except.ok (Y_hat F A stride p)
  else
    Except.error "ValueError: could not broadcast input array into output slice"

/-- Whether an `Except` result is a success. -/
def isOkB {α : Type} : Except String α → Bool
  | Except.ok _ => true
  | Except.error _ => false

/-- Python `range(0, stop, step)` with its full error semantics, over an
integer `step`: `step = 0` raises `ValueError` at construction time (before
any value is produced); a negative `step` counting down from `0` towards a
nonnegative `stop` is legal and empty. -/
def pyRange (stop : ℕ) (step : ℤ) : Except String (List ℤ) :=
  if step = 0 then
    Except.error "ValueError: range() arg 3 must not be zero"
  else if 0 < step then
    Except.ok ((List.range ((stop + step.toNat - 1) / step.toNat)).map
      (fun k : ℕ => step * (k : ℤ)))
  else
    Except.ok []

/-- The body of the scheduler's outer loop (lines 687-689): for each origin
row already produced, the inner `range(0, final_shape.x, stride.x)` is
constructed afresh - so a zero column stride raises only once the outer
sequence is nonempty - and the row of origins is appended. -/
def scheduleRows (F : Shape) (sx : ℤ) : List ℤ → Except String (List (ℤ × ℤ))
  | [] => Except.ok []
  | yv :: rest => do
      let xs ← pyRange F.x sx
      let rows ← scheduleRows F sx rest
      pure (xs.map (fun xv => (yv, xv)) ++ rows)

/-- The tile scheduler of lines 686-689 with Python's error semantics: the
outer `range(0, final_shape.y, stride.y)` is constructed first, then the
rows are accumulated by `scheduleRows`. -/
def scheduleE (F : Shape) (sy sx : ℤ) : Except String (List (ℤ × ℤ)) := do
  let ys ← pyRange F.y sy
  scheduleRows F sx ys

/-- The region of the mosaic that the stitching loop actually populates:
the full extent eroded by a `4 * (xtrapad + 1)`-pixel band on every side
(the code trims `(xtrapad + 1) * 4` output pixels from every tile edge,
including tiles on the global boundary). -/
def inEroded (F p : Shape) (r c : ℕ) : Prop :=
  4 * (p.y + 1) ≤ r ∧ r < F.y - 4 * (p.y + 1) ∧
  4 * (p.x + 1) ≤ c ∧ c < F.x - 4 * (p.x + 1)

instance (F p : Shape) (r c : ℕ) : Decidable (inEroded F p r c) :=
  inferInstanceAs (Decidable (_ ∧ _))

/- ------------------------------------------------------------------ -/
/- Helper lemmas.                                                     -/
/- ------------------------------------------------------------------ -/

/-- Counting lemma for the scheduler: `k` indexes into
`range(0, stop, step)` exactly when `k * step < stop`. -/
lemma lt_ceilDiv_iff {n d k : ℕ} (h : 0 < d) : k < (n + d - 1) / d ↔ k * d < n := by
  rw [Nat.lt_iff_add_one_le, Nat.le_div_iff_mul_le h]
  have hh : (k + 1) * d = k * d + d := by ring
  rw [hh]
  generalize k * d = m
  omega

lemma mem_natRange_self {stop step v : ℕ} (h : v ∈ natRange stop step) :
    ∃ k, v = step * k ∧ v < stop := by
  rcases Nat.eq_zero_or_pos step with hz | hpos
  · subst hz
    simp [natRange] at h
  · unfold natRange at h
    rw [List.mem_range'] at h
    obtain ⟨i, hi, rfl⟩ := h
    rw [lt_ceilDiv_iff hpos] at hi
    have hc : i * step = step * i := by ring
    exact ⟨i, by omega, by omega⟩

lemma mem_natRange_iff {stop step v : ℕ} (hpos : 0 < step) :
    v ∈ natRange stop step ↔ ∃ k, v = step * k ∧ v < stop := by
  constructor
  · exact mem_natRange_self
  · rintro ⟨k, rfl, hlt⟩
    unfold natRange
    rw [List.mem_range']
    refine ⟨k, ?_, by ring⟩
    rw [lt_ceilDiv_iff hpos]
    have hc : k * step = step * k := by ring
    omega

lemma mem_steps_iff {F stride s : Shape} (hy : 0 < stride.y) (hx : 0 < stride.x) :
    s ∈ steps F stride ↔
      (∃ k, s.y = stride.y * k ∧ s.y < F.y) ∧ (∃ j, s.x = stride.x * j ∧ s.x < F.x) := by
  unfold steps
  rw [List.mem_flatMap]
  constructor
  · rintro ⟨ys, hys, hmem⟩
    rw [List.mem_map] at hmem
    obtain ⟨xs, hxs, hs⟩ := hmem
    cases s
    cases hs
    exact ⟨mem_natRange_self hys, mem_natRange_self hxs⟩
  · rintro ⟨hy', hx'⟩
    refine ⟨s.y, (mem_natRange_iff hy).mpr hy', ?_⟩
    rw [List.mem_map]
    exact ⟨s.x, (mem_natRange_iff hx).mpr hx', by cases s; rfl⟩

lemma mem_steps_bounds {F stride s : Shape} (h : s ∈ steps F stride) :
    s.y < F.y ∧ s.x < F.x := by
  unfold steps at h
  rw [List.mem_flatMap] at h
  obtain ⟨ys, hys, hmem⟩ := h
  rw [List.mem_map] at hmem
  obtain ⟨xs, hxs, hs⟩ := hmem
  obtain ⟨_, _, h1⟩ := mem_natRange_self hys
  obtain ⟨_, _, h2⟩ := mem_natRange_self hxs
  cases s
  cases hs
  exact ⟨h1, h2⟩

lemma mem_steps_mult {F stride s : Shape} (h : s ∈ steps F stride) :
    (∃ k, s.y = stride.y * k) ∧ (∃ j, s.x = stride.x * j) := by
  unfold steps at h
  rw [List.mem_flatMap] at h
  obtain ⟨ys, hys, hmem⟩ := h
  rw [List.mem_map] at hmem
  obtain ⟨xs, hxs, hs⟩ := hmem
  obtain ⟨k, hk, _⟩ := mem_natRange_self hys
  obtain ⟨j, hj, _⟩ := mem_natRange_self hxs
  cases s
  cases hs
  exact ⟨⟨k, hk⟩, ⟨j, hj⟩⟩

/-- Every write lands at or after the `4 * (xtrapad + 1)` border. -/
lemma writesTo_lower {F A p s : Shape} {r c : ℕ} (h : writesTo F A p s r c) :
    4 * (p.y + 1) ≤ r ∧ 4 * (p.x + 1) ≤ c := by
  obtain ⟨⟨h1, _⟩, ⟨h2, _⟩⟩ := h
  unfold axisWriteStart window0 at h1 h2
  omega

/-- One axis of the write region, under the divisibility discipline of the
reference configuration: it is the nominal tile interval `[sa, sa + aa)`
intersected with the eroded band `[4*(pa+1), fa - 4*(pa+1))`. -/
lemma rowWrites_char {fa aa pa sa r : ℕ} (h4s : 4 ∣ sa) (h4sa : 4 ∣ (sa + aa))
    (h4f : 4 ∣ fa) (hsf : sa + aa ≤ fa) :
    rowWrites fa aa pa sa r ↔
      (sa ≤ r ∧ r < sa + aa ∧ 4 * (pa + 1) ≤ r ∧ r < fa - 4 * (pa + 1)) := by
  unfold rowWrites axisWriteStart axisWriteStop window0 window1
  omega

/-- Distinct row origins at least `aa` apart never write the same row
(no divisibility assumptions: this holds for every configuration). -/
lemma rowWrites_disjoint {fa aa pa sa sa' r : ℕ} (h : sa + aa ≤ sa') :
    ¬(rowWrites fa aa pa sa r ∧ rowWrites fa aa pa sa' r) := by
  unfold rowWrites axisWriteStart axisWriteStop window0 window1
  omega

/-- Folding the stitch over tiles none of which writes `(r, c)` leaves the
pixel as the initial map has it. -/
lemma foldl_write_none (F A p : Shape) (r c : ℕ) :
    ∀ (L : List Shape) (m : ℕ → ℕ → Option Shape),
      (∀ s ∈ L, ¬ writesTo F A p s r c) → m r c = none →
      (L.foldl (fun m s => fun r c => if writesTo F A p s r c then some s else m r c) m) r c
        = none := by
  intro L
  induction L with
  | nil => intro m _ hm; simpa using hm
  | cons a L ih =>
      intro m hL hm
      simp only [List.foldl_cons]
      refine ih _ (fun s hs => hL s (List.mem_cons_of_mem _ hs)) ?_
      have ha : ¬ writesTo F A p a r c := hL a (List.mem_cons_self _ _)
      simp [ha, hm]

/-- Pixels in the global border band are never written: the mosaic keeps the
sentinel there. -/
lemma Y_hat_border (F A stride p : Shape) (r c : ℕ)
    (h : r < 4 * (p.y + 1) ∨ c < 4 * (p.x + 1)) :
    Y_hat F A stride p r c = none := by
  unfold Y_hat
  refine foldl_write_none F A p r c _ _ (fun s _ hw => ?_) rfl
  have := writesTo_lower hw
  omega

lemma countWriters_border (F A stride p : Shape) (r c : ℕ)
    (h : r < 4 * (p.y + 1) ∨ c < 4 * (p.x + 1)) :
    countWriters F A stride p r c = 0 := by
  unfold countWriters
  rw [List.length_eq_zero, List.filter_eq_nil_iff]
  intro s _
  simp only [decide_eq_true_eq]
  intro hw
  have := writesTo_lower hw
  omega

/- ------------------------------------------------------------------ -/
/- Claim C2: the window-mapper formulas.                              -/
/- ------------------------------------------------------------------ -/

/-- Claim C2, counterexample: the code's upper window bound uses floor
division, not the ceiling division the claim states.  At origin 0 with
`ary_shape = 1`, `xtrapad = 0` and extent 1000 the code computes
`y1 = (0 + 1) // 4 + 0 + 1 = 1` while the claimed ceiling formula gives
`ceil(1 / 4) + 0 + 1 = 2`. -/
theorem C2_window_counterexample :
    window1 1000 1 0 0 = 1 ∧ specWindow1 1000 1 0 0 = 2 ∧
    ¬ window1 1000 1 0 0 = specWindow1 1000 1 0 0 := by
  decide

/-- Claim C2 (corrected): the Window Mapper computes
`y0 = max(0, floor(origin / 4) - xtrapad - 1)` and
`y1 = min(extent, floor((origin + ary) / 4) + xtrapad + 1)` - both bounds
use floor division (the claim's ceiling in the upper bound is wrong) -
and symmetrically for columns.  Stated over ℤ so that the `max(0, _)`
clamp and the divisions are the mathematical ones. -/
theorem C2_window_formula_amended (fa aa pa sa : ℕ) :
    ((window0 pa sa : ℤ) = max 0 ((sa : ℤ) / 4 - pa - 1)) ∧
    ((window1 fa aa pa sa : ℤ) = min ((fa : ℤ) / 4) (((sa : ℤ) + aa) / 4 + pa + 1)) := by
  unfold window0 window1
  constructor
  · omega
  · omega

/- ------------------------------------------------------------------ -/
/- Claim C3: the boundary scenario.                                   -/
/- ------------------------------------------------------------------ -/

/-- Claim C3, counterexample: with `final_shape = (1000, 1000)` and
`ary_shape = stride = (400, 400)`, the tile at origin `(800, 800)` does not
produce the claimed target rectangle `[800, 1000) x [800, 1000)`: its write
stops at 924, and the pixel `(950, 950)` inside the claimed rectangle is
not written by it. -/
theorem C3_boundary_counterexample :
    axisWriteStop 1000 400 18 800 = 924 ∧ ¬ axisWriteStop 1000 400 18 800 = 1000 ∧
    ¬ writesTo ⟨1000, 1000⟩ ⟨400, 400⟩ ⟨18, 18⟩ ⟨800, 800⟩ 950 950 := by
  decide

/-- Claim C3 (corrected): the Tile Scheduler yields exactly the nine claimed
origins in row-major order, but the tile at `(800, 800)` writes the target
rectangle `[800, 924) x [800, 924)` (size 124 x 124): the far clamp
`min(final//4, ...)` combined with the unconditional `(y1 - xtrapad - 1)*4`
trim removes a further `(xtrapad + 1) * 4 = 76` pixels at the mosaic
boundary, so the rectangle is neither the claimed `[800, 1000)` (200 x 200)
nor 400 x 400. -/
theorem C3_boundary_amended :
    steps ⟨1000, 1000⟩ ⟨400, 400⟩ =
      [⟨0, 0⟩, ⟨0, 400⟩, ⟨0, 800⟩, ⟨400, 0⟩, ⟨400, 400⟩, ⟨400, 800⟩,
       ⟨800, 0⟩, ⟨800, 400⟩, ⟨800, 800⟩] ∧
    axisWriteStart 18 800 = 800 ∧ axisWriteStop 1000 400 18 800 = 924 ∧
    1000 - 924 = 4 * (18 + 1) := by
  decide

/- ------------------------------------------------------------------ -/
/- Claim C8: per-source crop scaling.                                 -/
/- ------------------------------------------------------------------ -/

/-- Claim C8 (confirmed): for every tile, the finest auxiliary source's
window is the primary window with both bounds multiplied by exactly 10, the
two-band velocity source's window is the primary window scaled by exactly 2,
and the accumulation source's window is identical to the primary window;
the scalings are exact integer multiplications with no rounding. -/
theorem C8_crop_scaling (F A p s : Shape) :
    cropW1 F A p s =
      ⟨10 * (cropX F A p s).r0, 10 * (cropX F A p s).r1,
       10 * (cropX F A p s).c0, 10 * (cropX F A p s).c1⟩ ∧
    cropW2 F A p s =
      ⟨2 * (cropX F A p s).r0, 2 * (cropX F A p s).r1,
       2 * (cropX F A p s).c0, 2 * (cropX F A p s).c1⟩ ∧
    cropW3 F A p s = cropX F A p s := by
  refine ⟨?_, ?_, rfl⟩ <;> simp [cropX, cropW1, cropW2, Nat.mul_comm]

/- ------------------------------------------------------------------ -/
/- Claim C9: the 630-pixel span scenario.                             -/
/- ------------------------------------------------------------------ -/

/-- Claim C9 (confirmed): for the ratio-10 source at tile origin
`(400, 400)` with `ary_shape = (100, 100)`, `xtrapad = (18, 18)` and a
source extent large enough that no clamp takes effect (extent 1000 here,
and the last two conjuncts witness that neither clamp is active), the
computed source window spans `(100/4 + 2*18 + 2) * 10 = 630` native pixels
on each axis. -/
theorem C9_span :
    (cropW1 ⟨1000, 1000⟩ ⟨100, 100⟩ ⟨18, 18⟩ ⟨400, 400⟩).r1
      - (cropW1 ⟨1000, 1000⟩ ⟨100, 100⟩ ⟨18, 18⟩ ⟨400, 400⟩).r0 = 630 ∧
    (cropW1 ⟨1000, 1000⟩ ⟨100, 100⟩ ⟨18, 18⟩ ⟨400, 400⟩).c1
      - (cropW1 ⟨1000, 1000⟩ ⟨100, 100⟩ ⟨18, 18⟩ ⟨400, 400⟩).c0 = 630 ∧
    (100 / 4 + 2 * 18 + 2) * 10 = 630 ∧
    (400 + 100) / 4 + 18 + 1 ≤ 1000 / 4 ∧ 18 + 1 ≤ 400 / 4 := by
  decide

/- ------------------------------------------------------------------ -/
/- Claim C7: window bounds for scheduled tiles.                       -/
/- ------------------------------------------------------------------ -/

/-- Claim C7 (confirmed): for every scheduled tile origin, the clamped
source window satisfies `row_start ≤ row_end ≤ source_extent` and likewise
for columns (the `0 ≤ row_start` part of the claim is the `max(0, _)`
clamp, which the ℕ embedding of the truncated subtraction carries
inherently); no negative-size window is ever produced. -/
theorem C7_window_bounds (F A stride p s : Shape) (hs : s ∈ steps F stride) :
    window0 p.y s.y ≤ window1 F.y A.y p.y s.y ∧ window1 F.y A.y p.y s.y ≤ F.y / 4 ∧
    window0 p.x s.x ≤ window1 F.x A.x p.x s.x ∧ window1 F.x A.x p.x s.x ≤ F.x / 4 := by
  obtain ⟨hy, hx⟩ := mem_steps_bounds hs
  unfold window0 window1
  exact ⟨by omega, by omega, by omega, by omega⟩

/-- Witness for C7 at the last tile of the boundary scenario. -/
theorem C7_window_bounds_witness :
    (Shape.mk 800 800 ∈ steps ⟨1000, 1000⟩ ⟨400, 400⟩) ∧
    (window0 18 800 ≤ window1 1000 400 18 800 ∧ window1 1000 400 18 800 ≤ 1000 / 4 ∧
     window0 18 800 ≤ window1 1000 400 18 800 ∧ window1 1000 400 18 800 ≤ 1000 / 4) :=
  ⟨by decide,
   C7_window_bounds ⟨1000, 1000⟩ ⟨400, 400⟩ ⟨400, 400⟩ ⟨18, 18⟩ ⟨800, 800⟩ (by decide)⟩

/- ------------------------------------------------------------------ -/
/- Shared lemmas on scheduled multiples.                              -/
/- ------------------------------------------------------------------ -/

lemma next_mult_le {a s f : ℕ} (hs : a ∣ s) (hf : a ∣ f) (h : s < f) : s + a ≤ f := by
  obtain ⟨k, rfl⟩ := hs
  obtain ⟨m, rfl⟩ := hf
  have hkm : k < m := by
    by_contra hge
    push_neg at hge
    have h2 : a * m ≤ a * k := mul_le_mul_left' hge a
    omega
  have h1 : a * (k + 1) ≤ a * m := mul_le_mul_left' (Nat.succ_le_of_lt hkm) a
  have h2 : a * (k + 1) = a * k + a := by ring
  omega

/-- The write interval of a scheduled tile, under the divisibility
discipline of the reference configuration (`4 ∣ ary`, `ary ∣ final`), is
the nominal tile interval intersected with the eroded band. -/
lemma scheduled_rowWrites_char {fa aa pa s r : ℕ} (h4 : 4 ∣ aa) (hd : aa ∣ fa)
    (hds : aa ∣ s) (hlt : s < fa) :
    rowWrites fa aa pa s r ↔
      (s ≤ r ∧ r < s + aa ∧ 4 * (pa + 1) ≤ r ∧ r < fa - 4 * (pa + 1)) :=
  rowWrites_char (dvd_trans h4 hds) (Nat.dvd_add (dvd_trans h4 hds) h4)
    (dvd_trans h4 hd) (next_mult_le hds hd hlt)

lemma div_mult_bounds (a r : ℕ) (h0 : 0 < a) :
    a * (r / a) ≤ r ∧ r < a * (r / a) + a := by
  have h1 := Nat.div_add_mod r a
  have h2 := Nat.mod_lt r h0
  omega

lemma div_unique (a k r : ℕ) (h1 : a * k ≤ r) (h2 : r < a * k + a) :
    k = r / a := by
  have h1' : k * a ≤ r := by rw [mul_comm]; exact h1
  have h2' : r < (k + 1) * a := by
    have hr : (k + 1) * a = a * k + a := by ring
    omega
  exact (Nat.div_eq_of_lt_le h1' h2').symm

/-- Distinct scheduled tiles never write the same pixel, for every
configuration with `stride == ary_shape` (no divisibility assumptions). -/
lemma writesTo_ne_disjoint {F A p s s' : Shape} {r c : ℕ}
    (hs : s ∈ steps F A) (hs' : s' ∈ steps F A) (hne : s ≠ s') :
    ¬ (writesTo F A p s r c ∧ writesTo F A p s' r c) := by
  rintro ⟨hw, hw'⟩
  obtain ⟨⟨k, hk⟩, ⟨j, hj⟩⟩ := mem_steps_mult hs
  obtain ⟨⟨k', hk'⟩, ⟨j', hj'⟩⟩ := mem_steps_mult hs'
  have key : ∀ a b b' : ℕ, b ≠ b' → (∃ m, b = a * m) → (∃ m', b' = a * m') →
      b + a ≤ b' ∨ b' + a ≤ b := by
    rintro a b b' hbb ⟨m, rfl⟩ ⟨m', rfl⟩
    have hmm : m ≠ m' := by rintro rfl; exact hbb rfl
    rcases Nat.lt_or_ge m m' with hlt | hge
    · left
      have h1 : a * (m + 1) ≤ a * m' := mul_le_mul_left' (Nat.succ_le_of_lt hlt) a
      have h2 : a * (m + 1) = a * m + a := by ring
      omega
    · right
      have hlt' : m' < m := lt_of_le_of_ne hge (Ne.symm hmm)
      have h1 : a * (m' + 1) ≤ a * m := mul_le_mul_left' (Nat.succ_le_of_lt hlt') a
      have h2 : a * (m' + 1) = a * m' + a := by ring
      omega
  have hor : s.y ≠ s'.y ∨ s.x ≠ s'.x := by
    by_contra hcon
    push_neg at hcon
    apply hne
    cases s
    cases s'
    simp only [Shape.mk.injEq]
    exact hcon
  rcases hor with hyy | hxx
  · rcases key A.y s.y s'.y hyy ⟨k, hk⟩ ⟨k', hk'⟩ with h | h
    · exact rowWrites_disjoint h ⟨hw.1, hw'.1⟩
    · exact rowWrites_disjoint h ⟨hw'.1, hw.1⟩
  · rcases key A.x s.x s'.x hxx ⟨j, hj⟩ ⟨j', hj'⟩ with h | h
    · exact rowWrites_disjoint h ⟨hw.2, hw'.2⟩
    · exact rowWrites_disjoint h ⟨hw'.2, hw.2⟩

/- ------------------------------------------------------------------ -/
/- Claim C10: frame property of one tile's stitch write.              -/
/- ------------------------------------------------------------------ -/

/-- Claim C10, counterexample: with `final_shape = (100, 100)`,
`ary_shape = stride = (10, 10)` and `xtrapad = (1, 1)`, the scheduled tile
at origin `(10, 10)` writes the mosaic pixel `(8, 8)`, which lies outside
the claimed nominal rectangle `[10, 10 + 40) x [10, 10 + 40)` (its row 8 is
below the origin row 10): when the origin is not a multiple of 4 the write
starts at the 4-aligned `4 * (origin / 4)`. -/
theorem C10_tile_frame_counterexample :
    (Shape.mk 10 10 ∈ steps ⟨100, 100⟩ ⟨10, 10⟩) ∧
    writesTo ⟨100, 100⟩ ⟨10, 10⟩ ⟨1, 1⟩ ⟨10, 10⟩ 8 8 ∧ 8 < 10 := by
  decide

/-- Claim C10 (corrected): a scheduled tile's stitch writes only pixels of
`[4*(step.y/4), step.y + ary_shape.y) x [4*(step.x/4), step.x + ary_shape.x)`
- the upper bounds are `step + ary_shape` (in output pixels; not the
claimed `step + ary_shape*4`), and the lower bounds are the 4-aligned
`4*(step/4)`, which is below `step` whenever the origin is not a multiple
of 4 - and, with `stride == ary_shape`, two distinct scheduled tiles never
write the same pixel, even when edge clamping shrinks a window. -/
theorem C10_tile_frame_amended (F A p s s' : Shape) (r c : ℕ)
    (hs : s ∈ steps F A) (hs' : s' ∈ steps F A) :
    (writesTo F A p s r c →
      4 * (s.y / 4) ≤ r ∧ r < s.y + A.y ∧ 4 * (s.x / 4) ≤ c ∧ c < s.x + A.x) ∧
    (s ≠ s' → ¬ (writesTo F A p s r c ∧ writesTo F A p s' r c)) := by
  constructor
  · rintro ⟨hwy, hwx⟩
    unfold rowWrites axisWriteStart axisWriteStop window0 window1 at hwy hwx
    exact ⟨by omega, by omega, by omega, by omega⟩
  · exact fun hne => writesTo_ne_disjoint hs hs' hne

/-- Witness for C10 on two scheduled tiles of the counterexample
configuration. -/
theorem C10_tile_frame_witness :
    ((Shape.mk 10 10 ∈ steps ⟨100, 100⟩ ⟨10, 10⟩) ∧
     (Shape.mk 20 20 ∈ steps ⟨100, 100⟩ ⟨10, 10⟩)) ∧
    ((writesTo ⟨100, 100⟩ ⟨10, 10⟩ ⟨1, 1⟩ ⟨10, 10⟩ 8 8 →
        4 * (10 / 4) ≤ 8 ∧ 8 < 10 + 10 ∧ 4 * (10 / 4) ≤ 8 ∧ 8 < 10 + 10) ∧
     (Shape.mk 10 10 ≠ Shape.mk 20 20 →
        ¬ (writesTo ⟨100, 100⟩ ⟨10, 10⟩ ⟨1, 1⟩ ⟨10, 10⟩ 8 8 ∧
           writesTo ⟨100, 100⟩ ⟨10, 10⟩ ⟨1, 1⟩ ⟨20, 20⟩ 8 8))) :=
  ⟨⟨by decide, by decide⟩,
   C10_tile_frame_amended ⟨100, 100⟩ ⟨10, 10⟩ ⟨1, 1⟩ ⟨10, 10⟩ ⟨20, 20⟩ 8 8
     (by decide) (by decide)⟩

/- ------------------------------------------------------------------ -/
/- Claim C1: the exact-tiling invariant.                              -/
/- ------------------------------------------------------------------ -/

/-- Claim C1, counterexample: already in the reference configuration
(`final_shape = (18000, 22000)`, `ary_shape = stride = (1000, 1000)`,
`xtrapad = (18, 18)`) the mosaic pixel `(0, 0)` - which lies inside the
output extent - is written by zero scheduled tiles, not exactly one: the
interior rectangles do not tile the full extent and the pixel keeps the
sentinel after a complete run. -/
theorem C1_exact_tiling_counterexample :
    ((0 : ℕ) < 18000 ∧ (0 : ℕ) < 22000) ∧
    countWriters ⟨18000, 22000⟩ ⟨1000, 1000⟩ ⟨1000, 1000⟩ ⟨18, 18⟩ 0 0 = 0 :=
  ⟨⟨by decide, by decide⟩,
   countWriters_border ⟨18000, 22000⟩ ⟨1000, 1000⟩ ⟨1000, 1000⟩ ⟨18, 18⟩ 0 0
     (Or.inl (by decide))⟩

/-- Claim C1 (corrected): with `stride == ary_shape`, `4 ∣ ary_shape`,
`ary_shape ∣ final_shape` and positive tiles (all true of the reference
configuration), the interior rectangles written by the stitcher exactly
tile the ERODED extent
`[4*(xtrapad+1), final_shape - 4*(xtrapad+1))` on each axis - every pixel
there is written by exactly one scheduled tile - while every pixel of the
`4*(xtrapad+1)`-wide global border (nonempty whenever the extent is) is
written by no tile at all and keeps the no-data sentinel, contrary to the
claimed gap-free tiling of the full extent `[0, final_shape)`. -/
theorem C1_exact_tiling_amended (F A p : Shape)
    (h4y : 4 ∣ A.y) (h4x : 4 ∣ A.x) (hdy : A.y ∣ F.y) (hdx : A.x ∣ F.x)
    (h0y : 0 < A.y) (h0x : 0 < A.x) (r c : ℕ) :
    (∃! s, s ∈ steps F A ∧ writesTo F A p s r c) ↔ inEroded F p r c := by
  constructor
  · rintro ⟨s, ⟨hmem, hw⟩, -⟩
    obtain ⟨⟨k, hk⟩, ⟨j, hj⟩⟩ := mem_steps_mult hmem
    obtain ⟨hylt, hxlt⟩ := mem_steps_bounds hmem
    have hcy := (scheduled_rowWrites_char h4y hdy ⟨k, hk⟩ hylt).mp hw.1
    have hcx := (scheduled_rowWrites_char h4x hdx ⟨j, hj⟩ hxlt).mp hw.2
    exact ⟨hcy.2.2.1, hcy.2.2.2, hcx.2.2.1, hcx.2.2.2⟩
  · rintro ⟨h1, h2, h3, h4⟩
    obtain ⟨hb1y, hb2y⟩ := div_mult_bounds A.y r h0y
    obtain ⟨hb1x, hb2x⟩ := div_mult_bounds A.x c h0x
    have hylt : A.y * (r / A.y) < F.y := by omega
    have hxlt : A.x * (c / A.x) < F.x := by omega
    refine ⟨⟨A.y * (r / A.y), A.x * (c / A.x)⟩, ⟨?_, ?_, ?_⟩, ?_⟩
    · exact (mem_steps_iff h0y h0x).mpr
        ⟨⟨r / A.y, rfl, hylt⟩, ⟨c / A.x, rfl, hxlt⟩⟩
    · exact (scheduled_rowWrites_char h4y hdy ⟨r / A.y, rfl⟩ hylt).mpr
        ⟨hb1y, hb2y, h1, h2⟩
    · exact (scheduled_rowWrites_char h4x hdx ⟨c / A.x, rfl⟩ hxlt).mpr
        ⟨hb1x, hb2x, h3, h4⟩
    · rintro s' ⟨hmem', hw'⟩
      obtain ⟨⟨k', hk'⟩, ⟨j', hj'⟩⟩ := mem_steps_mult hmem'
      obtain ⟨hylt', hxlt'⟩ := mem_steps_bounds hmem'
      have hcy := (scheduled_rowWrites_char h4y hdy ⟨k', hk'⟩ hylt').mp hw'.1
      have hcx := (scheduled_rowWrites_char h4x hdx ⟨j', hj'⟩ hxlt').mp hw'.2
      have e1y : A.y * k' ≤ r := by rw [← hk']; exact hcy.1
      have e2y : r < A.y * k' + A.y := by rw [← hk']; exact hcy.2.1
      have e1x : A.x * j' ≤ c := by rw [← hj']; exact hcx.1
      have e2x : c < A.x * j' + A.x := by rw [← hj']; exact hcx.2.1
      have hky : k' = r / A.y := div_unique A.y k' r e1y e2y
      have hjx : j' = c / A.x := div_unique A.x j' c e1x e2x
      cases s'
      simp only [Shape.mk.injEq]
      constructor
      · simpa [hky] using hk'
      · simpa [hjx] using hj'

/-- Witness for C1 at the reference configuration and the interior pixel
`(100, 100)`. -/
theorem C1_exact_tiling_witness :
    ((4 ∣ 1000) ∧ (1000 ∣ 18000) ∧ (1000 ∣ 22000) ∧ (0 : ℕ) < 1000) ∧
    ((∃! s, s ∈ steps ⟨18000, 22000⟩ ⟨1000, 1000⟩ ∧
        writesTo ⟨18000, 22000⟩ ⟨1000, 1000⟩ ⟨18, 18⟩ s 100 100) ↔
      inEroded ⟨18000, 22000⟩ ⟨18, 18⟩ 100 100) :=
  ⟨⟨by decide, by decide, by decide, by decide⟩,
   C1_exact_tiling_amended ⟨18000, 22000⟩ ⟨1000, 1000⟩ ⟨18, 18⟩ (by decide) (by decide)
     (by decide) (by decide) (by decide) (by decide) 100 100⟩

/- ------------------------------------------------------------------ -/
/- Claim C4: no post-run sentinel consistency check.                  -/
/- ------------------------------------------------------------------ -/

set_option maxRecDepth 100000 in
/-- Claim C4, counterexample: in the reference configuration the run
completes successfully - every per-tile stitch is shape-compatible, so the
pipeline hands the mosaic straight to the persistence collaborator - yet
the exported mosaic still holds the no-data sentinel at pixel `(0, 0)`.
No post-run consistency check detects this; nothing is reported as a
failure. -/
theorem C4_no_sentinel_check_counterexample :
    runE ⟨18000, 22000⟩ ⟨1000, 1000⟩ ⟨1000, 1000⟩ ⟨18, 18⟩
        = Except.ok (Y_hat ⟨18000, 22000⟩ ⟨1000, 1000⟩ ⟨1000, 1000⟩ ⟨18, 18⟩) ∧
    Y_hat ⟨18000, 22000⟩ ⟨1000, 1000⟩ ⟨1000, 1000⟩ ⟨18, 18⟩ 0 0 = none := by
  constructor
  · unfold runE
    rw [if_pos (by decide)]
  · exact Y_hat_border ⟨18000, 22000⟩ ⟨1000, 1000⟩ ⟨1000, 1000⟩ ⟨18, 18⟩ 0 0
      (Or.inl (by decide))

/-- Claim C4 (corrected): the code performs no post-run consistency check
at all.  For every configuration, the run either aborts inside the loop
with a numpy broadcast `ValueError` or exports the mosaic exactly as the
loop left it - and every pixel of the `4*(xtrapad+1)`-wide global border is
still the sentinel at that point, so sentinel-valued pixels are exported,
not detected. -/
theorem C4_export_unchecked_amended (F A stride p : Shape) (r c : ℕ)
    (h : r < 4 * (p.y + 1) ∨ c < 4 * (p.x + 1)) :
    Y_hat F A stride p r c = none ∧
    (runE F A stride p = Except.ok (Y_hat F A stride p) ∨
     runE F A stride p
        = Except.error "ValueError: could not broadcast input array into output slice") := by
  refine ⟨Y_hat_border F A stride p r c h, ?_⟩
  unfold runE
  by_cases hall : ((steps F stride).all (fun s => stitchOkB F A p s)) = true
  · left
    rw [if_pos hall]
  · right
    rw [if_neg hall]

/-- Witness for C4 at the reference configuration, pixel `(0, 0)`. -/
theorem C4_export_unchecked_witness :
    ((0 : ℕ) < 4 * (18 + 1) ∨ (0 : ℕ) < 4 * (18 + 1)) ∧
    (Y_hat ⟨18000, 22000⟩ ⟨1000, 1000⟩ ⟨1000, 1000⟩ ⟨18, 18⟩ 0 0 = none ∧
     (runE ⟨18000, 22000⟩ ⟨1000, 1000⟩ ⟨1000, 1000⟩ ⟨18, 18⟩
          = Except.ok (Y_hat ⟨18000, 22000⟩ ⟨1000, 1000⟩ ⟨1000, 1000⟩ ⟨18, 18⟩) ∨
      runE ⟨18000, 22000⟩ ⟨1000, 1000⟩ ⟨1000, 1000⟩ ⟨18, 18⟩
          = Except.error "ValueError: could not broadcast input array into output slice")) :=
  ⟨Or.inl (by decide),
   C4_export_unchecked_amended ⟨18000, 22000⟩ ⟨1000, 1000⟩ ⟨1000, 1000⟩ ⟨18, 18⟩ 0 0
     (Or.inl (by decide))⟩

/- ------------------------------------------------------------------ -/
/- Claim C5: no assertion that stride equals ary_shape.               -/
/- ------------------------------------------------------------------ -/

/-- Claim C5, counterexample: no assertion checks `stride == ary_shape`.
Running with `ary_shape = (1000, 1000)` but `stride = (500, 500)` (a
mismatch) on a 2000 x 2000 output is not rejected as a configuration
error: the run completes successfully. -/
theorem C5_no_stride_assert_counterexample :
    ¬ (Shape.mk 500 500 = Shape.mk 1000 1000) ∧
    isOkB (runE ⟨2000, 2000⟩ ⟨1000, 1000⟩ ⟨500, 500⟩ ⟨18, 18⟩) = true := by
  constructor
  · decide
  · decide

/-- Claim C5 (corrected): the `stride == ary_shape` requirement is not
asserted anywhere; a mismatched configuration is silently tolerated.  With
`ary_shape = (1000, 1000)` and `stride = (500, 500)` the run completes
without any configuration error, and the mosaic pixel `(600, 600)` is
written by four distinct scheduled tiles (double-counted pixels), exactly
the hazard the spec says must be ruled out by an assertion. -/
theorem C5_no_stride_assert_amended :
    isOkB (runE ⟨2000, 2000⟩ ⟨1000, 1000⟩ ⟨500, 500⟩ ⟨18, 18⟩) = true ∧
    countWriters ⟨2000, 2000⟩ ⟨1000, 1000⟩ ⟨500, 500⟩ ⟨18, 18⟩ 600 600 = 4 := by
  constructor
  · decide
  · decide

/- ------------------------------------------------------------------ -/
/- Claim C6: non-positive stride handling.                            -/
/- ------------------------------------------------------------------ -/

/-- Claim C6, counterexample: a negative stride is not a configuration
error.  With `stride.rows = -1` (and `stride.cols = 1`) on a 1000 x 1000
output, Python's `range(0, 1000, -1)` is legal and empty, so the scheduler
silently yields no tile origins and raises nothing, contrary to the claim
that every non-positive stride fails immediately. -/
theorem C6_stride_counterexample :
    scheduleE ⟨1000, 1000⟩ (-1) 1 = Except.ok [] ∧ (-1 : ℤ) < 0 := by
  constructor
  · rfl
  · decide

/-- Claim C6 (corrected): only a ZERO stride component is rejected:
`stride.rows = 0` raises `ValueError` when the outer range is constructed,
before any tile origin is produced, and `stride.cols = 0` raises as soon as
the outer sequence is nonempty (that is, when `stride.rows > 0` and the
output extent is nonempty); but a NEGATIVE stride component is silently
tolerated - the schedule is empty and no error is ever raised, so no
per-tile work is done for a different reason than the claim states. -/
theorem C6_stride_errors_amended (F : Shape) (sy sx : ℤ) :
    (sy = 0 → scheduleE F sy sx = Except.error "ValueError: range() arg 3 must not be zero") ∧
    (0 < sy → 0 < F.y → sx = 0 →
      scheduleE F sy sx = Except.error "ValueError: range() arg 3 must not be zero") ∧
    (sy < 0 → scheduleE F sy sx = Except.ok []) := by
  refine ⟨?_, ?_, ?_⟩
  · rintro rfl
    unfold scheduleE
    rw [show pyRange F.y 0 = Except.error "ValueError: range() arg 3 must not be zero" from
      by unfold pyRange; rw [if_pos rfl]]
    rfl
  · intro hsy hFy
    rintro rfl
    have hpos : 0 < sy.toNat := by omega
    have hn : 0 < (F.y + sy.toNat - 1) / sy.toNat := Nat.div_pos (by omega) hpos
    unfold scheduleE
    rw [show pyRange F.y sy
        = Except.ok ((List.range ((F.y + sy.toNat - 1) / sy.toNat)).map
            (fun k : ℕ => sy * (k : ℤ))) from
      by unfold pyRange; rw [if_neg (by omega), if_pos (by omega)]]
    obtain ⟨n, hn2⟩ : ∃ n, (F.y + sy.toNat - 1) / sy.toNat = n + 1 :=
      ⟨_, (Nat.succ_pred_eq_of_pos hn).symm⟩
    rw [hn2, List.range_succ_eq_map, List.map_cons]
    show scheduleRows F 0 _ = _
    rw [scheduleRows]
    rw [show pyRange F.x 0 = Except.error "ValueError: range() arg 3 must not be zero" from
      by unfold pyRange; rw [if_pos rfl]]
    rfl
  · intro hneg
    unfold scheduleE
    rw [show pyRange F.y sy = Except.ok [] from
      by unfold pyRange; rw [if_neg (by omega), if_neg (by omega)]]
    rfl

/-- Witness for C6: the zero-row-stride, zero-column-stride and
negative-stride behaviours at a concrete 7 x 9 output extent. -/
theorem C6_stride_errors_witness :
    scheduleE ⟨7, 9⟩ 0 3 = Except.error "ValueError: range() arg 3 must not be zero" ∧
    scheduleE ⟨7, 9⟩ 2 0 = Except.error "ValueError: range() arg 3 must not be zero" ∧
    scheduleE ⟨7, 9⟩ (-2) 3 = Except.ok [] :=
  ⟨(C6_stride_errors_amended ⟨7, 9⟩ 0 3).1 rfl,
   (C6_stride_errors_amended ⟨7, 9⟩ 2 0).2.1 (by decide) (by decide) rfl,
   (C6_stride_errors_amended ⟨7, 9⟩ (-2) 3).2.2 (by decide)⟩
